/-
Verification of the balatro-rl bridge layer: a shallow embedding of the
state/action mappers (src/ai/utils/mappers.py), the schema validator
(src/ai/utils/validation.py), the reward calculator
(src/ai/environment/reward.py) and the replay leaderboard
(src/ai/utils/replay.py), together with proofs about the properties the
specification states for them.

Modelling conventions:
- Python dicts with a fixed schema become structures whose fields are
  `Option`-valued: `none` models an absent key, `some v` a present key of
  the expected type.  `d.get(k, default)` becomes `field.getD default`;
  `d[k]` becomes an access that raises `keyError` when the field is `none`.
- Python numbers become `Int` (counters, flags, phase codes) or `ℚ`
  (chip amounts and the float feature values); numpy float arrays become
  `List ℚ`.
- Raised exceptions become `Except PyError`; `assert` raises
  `assertionError`, `raise ValueError` raises `valueError`, subscripting a
  missing key raises `keyError`, indexing past the end raises
  `indexError`.  A bare Python `assert` carries the empty message.
-/
import Mathlib

namespace Balatro

set_option maxRecDepth 100000

/-- The kinds of Python exception that the modelled code can raise and
distinguishes (a `try/except ValueError` catches `valueError` only). -/
inductive PyError where
  | assertionError (msg : String)
  | valueError (msg : String)
  | keyError (msg : String)
  | indexError (msg : String)
deriving DecidableEq

/-- Python `assert cond, msg`: raises `AssertionError(msg)` when `cond` fails. -/
def py_assert (cond : Bool) (msg : String) : Except PyError Unit :=
  if cond then .ok () else .error (.assertionError msg)

/-- Python `d[key]` on an `Option`-modelled field: raises `KeyError` when absent. -/
def dict_index {α : Type} (key : String) (x : Option α) : Except PyError α :=
  match x with
  | some v => .ok v
  | none => .error (.keyError key)

/-! ## Data model: the wire snapshot (GameStateSnapshot of the spec) -/

/-- The `base` sub-dict of a card: `{value, nominal}`. -/
structure CardBase where
  value : Option String
  nominal : Option ℚ
deriving DecidableEq

/-- One card dict of `hand.cards`. -/
structure Card where
  suit : Option String
  base : Option CardBase
  highlighted : Option Bool
  debuff : Option Bool
deriving DecidableEq

/-- The `hand` dict: `{size, cards, highlighted_count}`. -/
structure Hand where
  size : Option ℚ
  cards : Option (List Card)
  highlighted_count : Option ℚ
deriving DecidableEq

/-- The `round` dict: `{hands_left, discards_left}`. -/
structure Round where
  hands_left : Option ℚ
  discards_left : Option ℚ
deriving DecidableEq

/-- The `blind` dict; the validator only checks that its keys are present. -/
structure Blind where
  dollars : Option ℚ
  defeated : Option Bool
  type : Option String
  chips : Option ℚ
  blind_ante : Option ℚ
deriving DecidableEq

/-- The `ante` dict: `{current_ante, win_ante}`. -/
structure Ante where
  current_ante : Option ℚ
  win_ante : Option ℚ
deriving DecidableEq

/-- The `current_hand` scoring dict: `{chips, mult, score, handname}`. -/
structure CurrentHand where
  chips : Option ℚ
  mult : Option ℚ
  score : Option ℚ
  handname : Option String
deriving DecidableEq

/-- The inner `game_state` dict of a snapshot. -/
structure InnerState where
  round : Option Round
  blind_chips : Option ℚ
  chips : Option ℚ
  state : Option Int
  game_over : Option Int
  retry_count : Option Int
  hand : Option Hand
  current_hand : Option CurrentHand
  blind : Option Blind
  ante : Option Ante
  game_win : Option Int
deriving DecidableEq

/-- The top-level request dict sent by the game process. -/
structure Snapshot where
  game_state : Option InnerState
  available_actions : Option (List Int)
  retry_count : Option Int
deriving DecidableEq

/-- The empty dict `{}` at each nesting level. -/
def CardBase.empty : CardBase := ⟨none, none⟩

def Hand.empty : Hand := ⟨none, none, none⟩

def Round.empty : Round := ⟨none, none⟩

def CurrentHand.empty : CurrentHand := ⟨none, none, none, none⟩

def InnerState.empty : InnerState :=
  ⟨none, none, none, none, none, none, none, none, none, none, none⟩

def Snapshot.empty : Snapshot := ⟨none, none, none⟩

/-! ## GameStateValidator (src/ai/utils/validation.py) -/

/-- Models `GameStateValidator._validate_card`: presence asserts for
`suit, base, highlighted, debuff`, then a `ValueError` when `base` lacks
`value` or `nominal`. -/
def validate_card (card : Card) (index : Nat) : Except PyError Bool := do
  py_assert card.suit.isSome ("Card " ++ toString index ++ " missing required field: suit")
  py_assert card.base.isSome ("Card " ++ toString index ++ " missing required field: base")
  py_assert card.highlighted.isSome
    ("Card " ++ toString index ++ " missing required field: highlighted")
  py_assert card.debuff.isSome ("Card " ++ toString index ++ " missing required field: debuff")
  let base ← dict_index "base" card.base
  if base.value.isNone || base.nominal.isNone then
    .error (.valueError ("Card " ++ toString index ++ " base missing value or nominal"))
  else
    .ok true

/-- The `for i, card in enumerate(hand.get('cards', []))` validation loop. -/
def validate_cards (cards : List Card) (index : Nat) : Except PyError Unit :=
  match cards with
  | [] => .ok ()
  | c :: rest => do
    let _ ← validate_card c index
    validate_cards rest (index + 1)

/-- Models `GameStateValidator._validate_hand`: presence asserts for
`size, cards, highlighted_count` (the `isinstance` list check always holds
in the typed model), then per-card validation. -/
def validate_hand (hand : Hand) : Except PyError Bool := do
  py_assert hand.size.isSome "Missing required field: size"
  py_assert hand.cards.isSome "Missing required field: cards"
  py_assert hand.highlighted_count.isSome "Missing required field: highlighted_count"
  validate_cards (hand.cards.getD []) 0
  .ok true

/-- Models `GameStateValidator._validate_round`. -/
def validate_round (round : Round) : Except PyError Bool := do
  py_assert round.hands_left.isSome "Missing required field: hands_left"
  py_assert round.discards_left.isSome "Missing required field: discards_left"
  .ok true

/-- Models `GameStateValidator._validate_blind`. -/
def validate_blind (blind : Blind) : Except PyError Bool := do
  py_assert blind.dollars.isSome "Missing required field: dollars"
  py_assert blind.defeated.isSome "Missing required field: defeated"
  py_assert blind.type.isSome "Missing required field: type"
  py_assert blind.chips.isSome "Missing required field: chips"
  py_assert blind.blind_ante.isSome "Missing required field: blind_ante"
  .ok true

/-- Models `GameStateValidator._validate_ante`. -/
def validate_ante (ante : Ante) : Except PyError Bool := do
  py_assert ante.current_ante.isSome "Missing required field: current_ante"
  py_assert ante.win_ante.isSome "Missing required field: win_ante"
  .ok true

/-- Models `GameStateValidator._validate_inner_game_state`: subscripts
`hand`, `round`, `blind`, `ante`, `game_over`, `state` (a `KeyError` when
absent) and runs the per-section validators; the bare
`assert game_state["game_over"] in [0, 1]` carries no message. -/
def validate_inner_game_state (gs : InnerState) : Except PyError Bool := do
  let hand ← dict_index "hand" gs.hand
  let _ ← validate_hand hand
  let round ← dict_index "round" gs.round
  let _ ← validate_round round
  let blind ← dict_index "blind" gs.blind
  let _ ← validate_blind blind
  let ante ← dict_index "ante" gs.ante
  let _ ← validate_ante ante
  let go ← dict_index "game_over" gs.game_over
  py_assert (go == 0 || go == 1) ""
  let _ ← dict_index "state" gs.state
  .ok true

/-- Models `GameStateValidator.validate_game_state`: presence asserts for the three
top-level required fields (the `isinstance` checks always hold in the typed
model), then inner validation. -/
def validate_game_state (game_state : Snapshot) : Except PyError Bool := do
  py_assert game_state.game_state.isSome "Missing required field: game_state"
  py_assert game_state.available_actions.isSome "Missing required field: available_actions"
  py_assert game_state.retry_count.isSome "Missing required field: retry_count"
  let inner := game_state.game_state.getD InnerState.empty
  let _ ← validate_inner_game_state inner
  .ok true

/-! ## BalatroStateMapper (src/ai/utils/mappers.py) -/

/-- Models `make_onehot(value, num_classes)`: a zero list with `1.0` at `value`
when `0 <= value < num_classes`; rendered positionally. -/
def make_onehot (value : Int) (num_classes : Nat) : List ℚ :=
  (List.range num_classes).map (fun i => if (i : Int) = value then 1 else 0)

/-- Models `make_mask(available_items, total_slots)`: a zero list with `1.0` at each
in-range available index; rendered positionally. -/
def make_mask (available_items : List Int) (total_slots : Nat) : List ℚ :=
  (List.range total_slots).map (fun i => if available_items.contains (i : Int) then 1 else 0)

/-- The `suits_mapping` dict lookup with default 4:
`{"Hearts": 0, "Diamonds": 1, "Spades": 2, "Clubs": 3}.get(suit, 4)`. -/
def suits_mapping (suit : String) : Int :=
  if suit = "Hearts" then 0
  else if suit = "Diamonds" then 1
  else if suit = "Spades" then 2
  else if suit = "Clubs" then 3
  else 4

/-- The `values_mapping` dict lookup with default 13 (an absent
`base.value` is `None`, which also misses every key). -/
def values_mapping (value : Option String) : Int :=
  match value with
  | none => 13
  | some v =>
    if v = "2" then 0 else if v = "3" then 1 else if v = "4" then 2
    else if v = "5" then 3 else if v = "6" then 4 else if v = "7" then 5
    else if v = "8" then 6 else if v = "9" then 7 else if v = "10" then 8
    else if v = "Jack" then 9 else if v = "Queen" then 10
    else if v = "King" then 11 else if v = "Ace" then 12 else 13

/-- The per-card feature block built inside `_extract_hand_features`:
`[highlighted] ++ suit one-hot (5) ++ value one-hot (14) ++ [nominal]`. -/
def card_features (card : Card) : List ℚ :=
  let highlighted : ℚ := if card.highlighted.getD false then 1 else 0
  let suit := card.suit.getD "Unknown"
  let base := card.base.getD CardBase.empty
  [highlighted] ++ make_onehot (suits_mapping suit) 5
    ++ make_onehot (values_mapping base.value) 14 ++ [base.nominal.getD 0]

/-- Models `BalatroStateMapper._extract_hand_features`: two hand scalars, then one
feature block per card, and a zero pad of `8 * 21` entries only when the
feature list still has exactly the two non-card entries (`cards == []`). -/
def extract_hand_features (hand : Hand) : List ℚ :=
  let cards := hand.cards.getD []
  let NON_CARDS_FEATURES := 2
  let features := [hand.size.getD 0, hand.highlighted_count.getD 0]
  let features := features ++ (cards.map card_features).flatten
  let max_cards := 8
  let features_per_card := 21
  if features.length = NON_CARDS_FEATURES then
    features ++ List.replicate (max_cards * features_per_card) (0 : ℚ)
  else
    features

/-- Models `BalatroStateMapper._extract_round_features`. -/
def extract_round_features (round : Round) : List ℚ :=
  [round.hands_left.getD 0, round.discards_left.getD 0]

/-- The closed `hand_types` enumeration of `_extract_current_hand_scoring`. -/
def hand_types : List String :=
  ["None", "High Card", "Pair", "Two Pair", "Three of a Kind", "Straight",
   "Flush", "Full House", "Four of a Kind", "Straight Flush", "Five of a Kind",
   "Flush House", "Flush Five"]

/-- The `hand_types.index(name)` position lookup used below. -/
def index_of_hand_type (name : String) (l : List String) (start : Nat) : Option Nat :=
  match l with
  | [] => none
  | x :: rest => if x = name then some start else index_of_hand_type name rest (start + 1)

/-- Models `BalatroStateMapper._extract_current_hand_scoring`: three raw scalars and
a 13-wide one-hot of the hand type; `list.index` raises `ValueError` for a
name outside the closed set. -/
def extract_current_hand_scoring (current_hand : CurrentHand) : Except PyError (List ℚ) := do
  let features := [current_hand.chips.getD 0, current_hand.mult.getD 0,
    current_hand.score.getD 0]
  let hand_name := current_hand.handname.getD "None"
  let hand_name := if hand_name = "" then "None" else hand_name
  match index_of_hand_type hand_name hand_types 0 with
  | some hand_index => .ok (features ++ make_onehot (hand_index : Int) hand_types.length)
  | none => .error (.valueError (hand_name ++ " is not in list"))

/-- Models `BalatroStateMapper._extract_game_features`: round scalars, blind/chip
scalars, 20-wide phase one-hot, game-over and retry scalars, hand features,
current-hand scoring, concatenated in this order. -/
def extract_game_features (state : InnerState) : Except PyError (List ℚ) := do
  let scoring ← extract_current_hand_scoring (state.current_hand.getD CurrentHand.empty)
  .ok (extract_round_features (state.round.getD Round.empty)
    ++ [state.blind_chips.getD 0, state.chips.getD 0]
    ++ make_onehot (state.state.getD 0) 20
    ++ [((state.game_over.getD 0 : Int) : ℚ), ((state.retry_count.getD 0 : Int) : ℚ)]
    ++ extract_hand_features (state.hand.getD Hand.empty)
    ++ scoring)

/-- The mapper object: constructed by the environment with
`observation_size=216` and `max_actions=3`. -/
structure BalatroStateMapper where
  observation_size : Nat
  max_actions : Nat
deriving DecidableEq

/-- Models `BalatroEnv.OBSERVATION_SIZE`. -/
def OBSERVATION_SIZE : Nat := 216

/-- Models `BalatroEnv.MAX_ACTIONS`. -/
def MAX_ACTIONS : Nat := 3

/-- Models `BalatroEnv.MAX_CARDS`. -/
def MAX_CARDS : Nat := 8

/-- The state mapper as the environment constructs it. -/
def env_state_mapper : BalatroStateMapper := ⟨OBSERVATION_SIZE, MAX_ACTIONS⟩

/-- Python truthiness of the `raw_state` argument: `None` and the empty
dict are falsy. -/
def snapshot_truthy (raw_state : Option Snapshot) : Bool :=
  match raw_state with
  | none => false
  | some s => !(s.game_state.isNone && s.available_actions.isNone && s.retry_count.isNone)

/-- Models `BalatroStateMapper._extract_available_actions`. -/
def extract_available_actions (m : BalatroStateMapper) (available_actions : List Int) :
    List ℚ :=
  make_mask available_actions m.max_actions

/-- Models `BalatroStateMapper.process_game_state`: a falsy snapshot yields a zero
vector of `observation_size`; otherwise the snapshot is validated in a
`try/except ValueError` (a `valueError` is logged and processing continues;
any other raised error propagates), and the game features are concatenated
with the available-action mask. -/
def BalatroStateMapper.process_game_state (m : BalatroStateMapper)
    (raw_state : Option Snapshot) : Except PyError (List ℚ) :=
  if !(snapshot_truthy raw_state) then
    .ok (List.replicate m.observation_size (0 : ℚ))
  else
    let s := raw_state.getD Snapshot.empty
    let rest : Except PyError (List ℚ) := do
      let gf ← extract_game_features (s.game_state.getD InnerState.empty)
      .ok (gf ++ extract_available_actions m (s.available_actions.getD []))
    match validate_game_state s with
    | .error (.valueError _) => rest
    | .error e => .error e
    | .ok _ => rest

/-- The length of the vector an `encode` call produced, when it returned one. -/
def except_length (e : Except PyError (List ℚ)) : Option Nat :=
  match e with
  | .ok v => some v.length
  | .error _ => none

/-! ## BalatroActionMapper (src/ai/utils/mappers.py) and the action slices
built in BalatroEnv._build_action_slices (src/ai/environment/balatro_env.py) -/

/-- The outbound command dict `{action, params}`. -/
structure ActionCommand where
  action : Int
  params : List Int
deriving DecidableEq

/-- Models `ResponseValidator.validate_response`: presence and `isinstance` asserts
that always hold for the typed `ActionCommand`. -/
def validate_response (_response : ActionCommand) : Except PyError Unit :=
  .ok ()

/-- The loop body of `_build_action_slices`: walk the layout accumulating
`start`, producing `slice(start, start + size)` per named segment. -/
def build_action_slices_from (start : Nat) :
    List (String × Nat) → List (String × (Nat × Nat))
  | [] => []
  | (action_name, size) :: rest =>
    (action_name, (start, start + size)) :: build_action_slices_from (start + size) rest

/-- Models `BalatroEnv._build_action_slices(layout)` with `start = 0`. -/
def build_action_slices (layout : List (String × Nat)) : List (String × (Nat × Nat)) :=
  build_action_slices_from 0 layout

/-- Models `BalatroEnv.ACTION_SLICE_LAYOUT`: one action-selection slot and
`MAX_CARDS = 8` card slots. -/
def ACTION_SLICE_LAYOUT : List (String × Nat) :=
  [("action_selection", 1), ("card_indices", MAX_CARDS)]

/-- Models `slices[key]` on the slice dict: `KeyError` when the key is absent. -/
def slices_lookup (slices : List (String × (Nat × Nat))) (key : String) :
    Except PyError (Nat × Nat) :=
  match slices.lookup key with
  | some s => .ok s
  | none => .error (.keyError key)

/-- Models `arr[slice(a, b)]` on a list. -/
def slice_list {α : Type} (l : List α) (s : Nat × Nat) : List α :=
  (l.take s.2).drop s.1

/-- Models `list[0]`: `IndexError` on an empty list. -/
def list_first {α : Type} (l : List α) : Except PyError α :=
  match l with
  | [] => .error (.indexError "list index out of range")
  | x :: _ => .ok x

/-- The `ai_to_balatro_mapping` dict lookup with default 1:
`{0: 1, 1: 2, 2: 3}.get(ai_action, 1)`. -/
def ai_to_balatro_mapping (ai_action : Int) : Int :=
  if ai_action = 0 then 1
  else if ai_action = 1 then 2
  else if ai_action = 2 then 3
  else 1

/-- The comprehension `[i + 1 for i, val in enumerate(card_indices) if val == 1]`,
rendered with an explicit running index. -/
def select_params_from (start : Nat) : List Int → List Int
  | [] => []
  | val :: rest =>
    if val = 1 then ((start : Int) + 1) :: select_params_from (start + 1) rest
    else select_params_from (start + 1) rest

/-- The action mapper object, holding the slice dict. -/
structure BalatroActionMapper where
  slices : List (String × (Nat × Nat))
deriving DecidableEq

/-- The action mapper as the environment constructs it. -/
def env_action_mapper : BalatroActionMapper :=
  ⟨build_action_slices ACTION_SLICE_LAYOUT⟩

/-- Models `BalatroActionMapper._extract_select_hand_params`. -/
def extract_select_hand_params (m : BalatroActionMapper) (raw_action : List Int) :
    Except PyError (List Int) := do
  let ci ← slices_lookup m.slices "card_indices"
  .ok (select_params_from 0 (slice_list raw_action ci))

/-- Models `BalatroActionMapper.process_action`: read the single action-selection
value, remap it through the compact-to-native table with default 1, attach
the 1-based selected card positions, and validate the response (which never
fails for the typed command). -/
def BalatroActionMapper.process_action (m : BalatroActionMapper) (rl_action : List Int) :
    Except PyError ActionCommand := do
  let sel ← slices_lookup m.slices "action_selection"
  let ai_action ← list_first (slice_list rl_action sel)
  let balatro_action_id := ai_to_balatro_mapping ai_action
  let params ← extract_select_hand_params m rl_action
  let response_data : ActionCommand := ⟨balatro_action_id, params⟩
  let _ ← validate_response response_data
  .ok response_data

/-! ## BalatroRewardCalculator (src/ai/environment/reward.py) -/

/-- One entry of `hands_played`, as `_track_hand_played` builds it. -/
structure HandInfo where
  chips : ℚ
  hand_type : String
  total_chips : ℚ
deriving DecidableEq

/-- The calculator's instance fields.  The Python code materialises the
`game_over_penalty_applied` attribute on first use and `reset` deletes it;
the boolean field models `hasattr`. -/
structure RewardState where
  previous_chips : ℚ
  previous_hand_played : String
  blind_already_defeated : Bool
  episode_count : Nat
  wins : Nat
  hands_played : List HandInfo
  episode_total_reward : ℚ
  last_seen_hand_type : String
  winning_chips : ℚ
  game_over_penalty_applied : Bool
deriving DecidableEq

/-- Models `BalatroRewardCalculator.__init__`. -/
def initRewardState : RewardState :=
  { previous_chips := 0
    previous_hand_played := "None"
    blind_already_defeated := false
    episode_count := 0
    wins := 0
    hands_played := []
    episode_total_reward := 0
    last_seen_hand_type := "Unknown"
    winning_chips := 0
    game_over_penalty_applied := false }

/-- Models `REWARD_THRESHOLDS["excellent"]`. -/
def THRESHOLD_excellent : ℚ := 80

/-- Models `REWARD_THRESHOLDS["good"]`. -/
def THRESHOLD_good : ℚ := 50

/-- Models `REWARD_THRESHOLDS["decent"]`. -/
def THRESHOLD_decent : ℚ := 25

/-- Models `BalatroRewardCalculator._track_hand_played`. -/
def track_hand_played (s : RewardState) (chip_gain : ℚ) (current_hand_played : String)
    (current_chips : ℚ) : RewardState :=
  let hand_info : HandInfo :=
    { chips := chip_gain
      hand_type := if current_hand_played = "None" then "Unknown" else current_hand_played
      total_chips := current_chips }
  { s with hands_played := s.hands_played ++ [hand_info] }

/-- The statement storing the seen hand type
(`if current_hand_played and ... != 'None' and ... != '': self.last_seen_hand_type = ...`). -/
def update_last_seen (s : RewardState) (current_hand_played : String) : RewardState :=
  if current_hand_played ≠ "" ∧ current_hand_played ≠ "None" then
    { s with last_seen_hand_type := current_hand_played }
  else s

/-- The `=== CORE SCORING REWARDS ===` block: tiered chip-gain reward while
the milestone is unclaimed, tracking the played hand. -/
def score_block (s : RewardState) (reward : ℚ) (chip_gain blind_chips : ℚ)
    (game_over : Int) (current_chips : ℚ) : ℚ × RewardState :=
  if chip_gain > 0 ∧ game_over = 0 ∧ s.blind_already_defeated = false ∧ blind_chips > 0 then
    let s := track_hand_played s chip_gain s.last_seen_hand_type current_chips
    let chip_percentage := chip_gain / blind_chips * 100
    let reward :=
      if chip_percentage ≥ THRESHOLD_excellent then reward + 10
      else if chip_percentage ≥ THRESHOLD_good then reward + 4
      else if chip_percentage ≥ THRESHOLD_decent then reward + 1
      else reward + (1/2 : ℚ)
    (reward, s)
  else (reward, s)

/-- The `=== BLIND COMPLETION ===` block: the one-time +50 milestone bonus,
guarded by the claimed flag. -/
def blind_block (s : RewardState) (reward : ℚ) (blind_defeated game_over : Int)
    (current_chips : ℚ) : ℚ × RewardState :=
  if blind_defeated ≠ 0 ∧ s.blind_already_defeated = false ∧ game_over = 0 then
    (reward + 50, { s with blind_already_defeated := true, winning_chips := current_chips })
  else (reward, s)

/-- The `=== PENALTIES ===` block: the one-time -20 terminal penalty, guarded
by the penalty flag and by the milestone never having been claimed. -/
def penalty_block (s : RewardState) (reward : ℚ) (game_over : Int) : ℚ × RewardState :=
  if game_over = 1 ∧ s.game_over_penalty_applied = false ∧ s.blind_already_defeated = false then
    (reward - 20, { s with game_over_penalty_applied := true })
  else (reward, s)

/-- Models `BalatroRewardCalculator.calculate_reward`, returning the reward and the
mutated calculator state.  The body is the sequence of the source's
commented blocks; `prev_state` is accepted and, as in the source, never
read. -/
def calculate_reward (s : RewardState) (current_state : Snapshot)
    (_prev_state : Option Snapshot) : ℚ × RewardState :=
  let reward : ℚ := 0
  let inner_game_state := current_state.game_state.getD InnerState.empty
  let current_chips := inner_game_state.chips.getD 0
  let game_over := inner_game_state.game_over.getD 0
  let retry_count := inner_game_state.retry_count.getD 0
  let reward := if retry_count > 0 then reward + (-1/10 : ℚ) * (retry_count : ℚ) else reward
  let blind_chips := inner_game_state.blind_chips.getD 300
  let blind_defeated := inner_game_state.game_win.getD 0
  let current_hand_info := inner_game_state.current_hand.getD CurrentHand.empty
  let current_hand_played := current_hand_info.handname.getD "None"
  let s := update_last_seen s current_hand_played
  let chip_gain := current_chips - s.previous_chips
  let scored := score_block s reward chip_gain blind_chips game_over current_chips
  let claimed := blind_block scored.2 scored.1 blind_defeated game_over current_chips
  let penalised := penalty_block claimed.2 claimed.1 game_over
  let reward := penalised.1
  let s := penalised.2
  let s := { s with episode_total_reward := s.episode_total_reward + reward }
  let s := { s with previous_chips := current_chips,
                    previous_hand_played := current_hand_played }
  (reward, s)

/-- Models `BalatroRewardCalculator.reset`: bump the episode counter, count a win
when the blind was defeated, then restore every episode-scoped field. -/
def RewardState.reset (s : RewardState) : RewardState :=
  let s := { s with episode_count := s.episode_count + 1 }
  let s := if s.blind_already_defeated then { s with wins := s.wins + 1 } else s
  { s with previous_chips := 0
           previous_hand_played := "None"
           blind_already_defeated := false
           hands_played := []
           episode_total_reward := 0
           last_seen_hand_type := "Unknown"
           winning_chips := 0
           game_over_penalty_applied := false }

/-- The milestone bonus fires in a call exactly when the source executes
`self.blind_already_defeated = True`, i.e. when the claimed flag goes from
false to true. -/
def bonus_fired (s : RewardState) (c : Snapshot) (p : Option Snapshot) : Bool :=
  !s.blind_already_defeated && (calculate_reward s c p).2.blind_already_defeated

/-- The terminal-failure penalty fires in a call exactly when the source
executes `self.game_over_penalty_applied = True`. -/
def penalty_fired (s : RewardState) (c : Snapshot) (p : Option Snapshot) : Bool :=
  !s.game_over_penalty_applied && (calculate_reward s c p).2.game_over_penalty_applied

/-- How often the milestone bonus fires along a sequence of reward calls. -/
def count_bonus_fires (s : RewardState) : List Snapshot → Nat
  | [] => 0
  | c :: cs =>
    (if bonus_fired s c none then 1 else 0) + count_bonus_fires (calculate_reward s c none).2 cs

/-- How often the terminal penalty fires along a sequence of reward calls. -/
def count_penalty_fires (s : RewardState) : List Snapshot → Nat
  | [] => 0
  | c :: cs =>
    (if penalty_fired s c none then 1 else 0)
      + count_penalty_fires (calculate_reward s c none).2 cs

/-! ## ReplaySystem (src/ai/utils/replay.py) -/

/-- One persisted replay record
`{seed, timestamp, chips, score, actions}`. -/
structure ReplayRecord where
  seed : String
  timestamp : String
  chips : ℚ
  score : ℚ
  actions : List ActionCommand
deriving DecidableEq

/-- What the leaderboard file can hold, as `load_replays` distinguishes it:
absent, unparsable, a JSON list, a dict with a `replay` key, or any other
parsed document. -/
inductive ReplayFile where
  | missing
  | corrupt
  | jsonList (records : List ReplayRecord)
  | jsonDictReplay (record : ReplayRecord)
  | jsonOther
deriving DecidableEq

/-- The replay system object; `MAX_REPLAYS` defaults to 10. -/
structure ReplaySystem where
  MAX_REPLAYS : Nat
deriving DecidableEq

/-- Models `ReplaySystem.load_replays`: `FileNotFoundError` and `JSONDecodeError`
are caught and yield `[]`; a parsed list is returned as-is, a dict with a
`replay` key yields a singleton, anything else yields `[]`. -/
def load_replays (file : ReplayFile) : List ReplayRecord :=
  match file with
  | .missing => []
  | .corrupt => []
  | .jsonList records => records
  | .jsonDictReplay record => [record]
  | .jsonOther => []

/-- The comparison `replays.sort(key=lambda x: x['score'], reverse=True)`
sorts stably by descending score. -/
def score_ge (a b : ReplayRecord) : Prop := b.score ≤ a.score

instance : DecidableRel score_ge :=
  fun a b => inferInstanceAs (Decidable (b.score ≤ a.score))

instance : IsTotal ReplayRecord score_ge := ⟨fun a b => le_total b.score a.score⟩

instance : IsTrans ReplayRecord score_ge := ⟨fun _ _ _ h1 h2 => le_trans h2 h1⟩

/-- The stable descending sort used on the replay list. -/
def sort_desc (l : List ReplayRecord) : List ReplayRecord :=
  l.insertionSort score_ge

/-- Models `ReplaySystem.try_save_replay`, with the freshly built `replay_data`
record passed in whole (its `timestamp` is an opaque string here).  Returns
the persisted file and the returned length.  With fewer than
`MAX_REPLAYS` records the record is appended; otherwise the sorted list's
last (lowest-scoring) record is replaced only when the new score is
strictly greater, and the function returns without saving when it is not.
Both saving paths sort descending and truncate to `MAX_REPLAYS`. -/
def try_save_replay (sys : ReplaySystem) (file : ReplayFile) (replay_data : ReplayRecord) :
    Except PyError (ReplayFile × Nat) :=
  let replays := load_replays file
  if replays.length < sys.MAX_REPLAYS then
    let replays := replays ++ [replay_data]
    let replays := (sort_desc replays).take sys.MAX_REPLAYS
    .ok (.jsonList replays, replays.length)
  else
    let sorted := sort_desc replays
    match sorted.getLast? with
    | none => .error (.indexError "list index out of range")
    | some last =>
      if last.score < replay_data.score then
        let replays := sorted.dropLast ++ [replay_data]
        let replays := (sort_desc replays).take sys.MAX_REPLAYS
        .ok (.jsonList replays, replays.length)
      else
        .ok (file, replays.length)

/-- Saving a batch of records one after the other, threading the file. -/
def save_all (sys : ReplaySystem) (file : ReplayFile) :
    List ReplayRecord → Except PyError ReplayFile
  | [] => .ok file
  | r :: rs => do
    let res ← try_save_replay sys file r
    save_all sys res.1 rs

/-- The invariant the leaderboard file is meant to keep: at most
`MAX_REPLAYS` records, sorted descending by score. -/
def leaderboard_wf (sys : ReplaySystem) (file : ReplayFile) : Prop :=
  (load_replays file).length ≤ sys.MAX_REPLAYS ∧ List.Sorted score_ge (load_replays file)

/-! ## Concrete sample inputs -/

/-- A fully specified card (Ace of Hearts, nominal 11). -/
def sample_card : Card :=
  ⟨some "Hearts", some ⟨some "Ace", some 11⟩, some false, some false⟩

/-- A validator-complete inner game state carrying the given hand cards. -/
def inner_with_cards (cards : List Card) : InnerState :=
  { round := some ⟨some 4, some 3⟩
    blind_chips := some 300
    chips := some 0
    state := some 1
    game_over := some 0
    retry_count := some 0
    hand := some ⟨some 8, some cards, some 0⟩
    current_hand := some ⟨some 0, some 0, some 0, some "None"⟩
    blind := some ⟨some 4, some false, some "Small", some 300, some 1⟩
    ante := some ⟨some 1, some 8⟩
    game_win := some 0 }

/-- A validator-accepted snapshot carrying the given hand cards. -/
def snap_with_cards (cards : List Card) : Snapshot :=
  ⟨some (inner_with_cards cards), some [1, 2, 3], some 0⟩

/-- A snapshot whose top-level `retry_count` key is missing. -/
def snap_missing_retry_count : Snapshot :=
  ⟨some (inner_with_cards []), some [1, 2, 3], none⟩

/-- A snapshot whose only schema violation is a card `base` lacking `value`
and `nominal`, the one check the validator raises as `ValueError`. -/
def snap_bad_card_base : Snapshot :=
  ⟨some (inner_with_cards [⟨some "Hearts", some ⟨none, none⟩, some false, some false⟩]),
   some [1, 2, 3], some 0⟩

/-- The C5 scenario state: chips 250 against a 300-chip blind, game running,
no retries, milestone not claimed. -/
def c5_state : Snapshot :=
  ⟨some { InnerState.empty with
            chips := some 250
            game_over := some 0
            retry_count := some 0
            blind_chips := some 300
            game_win := some 0 },
   some [1], some 0⟩

/-! ## Claim theorems -/

/-- C1: the claim says `process_game_state` always returns a vector of the
configured fixed length `observation_size = 216`, truncating hands beyond 8
cards and zero-filling missing card slots.  The code contradicts its own
docstring ("Pads/truncates to fixed hand size for consistent input"): it
zero-pads only a fully empty hand and never truncates, and even the padded
empty-hand encoding is 215 entries, not 216.  Validator-accepted snapshots
with 0, 1 and 9 cards yield vectors of lengths 215, 68 and 236. -/
theorem c1_encode_length_varies :
    validate_game_state (snap_with_cards []) = .ok true ∧
    validate_game_state (snap_with_cards [sample_card]) = .ok true ∧
    validate_game_state (snap_with_cards (List.replicate 9 sample_card)) = .ok true ∧
    except_length (env_state_mapper.process_game_state (some (snap_with_cards [])))
      = some 215 ∧
    except_length (env_state_mapper.process_game_state (some (snap_with_cards [sample_card])))
      = some 68 ∧
    except_length (env_state_mapper.process_game_state
      (some (snap_with_cards (List.replicate 9 sample_card)))) = some 236 ∧
    env_state_mapper.observation_size = 216 :=
  ⟨rfl, rfl, rfl, rfl, rfl, rfl, rfl⟩

/-- C2: the claim says a snapshot that fails schema validation (e.g. missing
`retry_count`) is logged and processing continues, returning a vector.  The
validator raises its missing-field failures as `assert` (`AssertionError`),
but `process_game_state` catches only `ValueError`, so the error propagates
to the caller instead.  A failure the validator does raise as `ValueError`
(a card base lacking value/nominal) is caught and a vector is still
returned, confirming the catch-and-continue intent. -/
theorem c2_validation_error_propagates :
    env_state_mapper.process_game_state (some snap_missing_retry_count)
      = .error (.assertionError "Missing required field: retry_count") ∧
    validate_game_state snap_bad_card_base
      = .error (.valueError "Card 0 base missing value or nominal") ∧
    except_length (env_state_mapper.process_game_state (some snap_bad_card_base))
      = some 68 :=
  ⟨rfl, rfl, rfl⟩

/-- The comprehension emits `start + i + 1` exactly for the positions `i`
holding the value 1. -/
theorem select_params_from_mem (l : List Int) : ∀ (start : Nat) (p : Int),
    (p ∈ select_params_from start l ↔
      ∃ i : Nat, l[i]? = some (1 : Int) ∧ p = (start : Int) + i + 1) := by
  induction l with
  | nil =>
    intro start p
    simp [select_params_from]
  | cons v rest ih =>
    intro start p
    rw [select_params_from]
    by_cases hv : v = 1
    · rw [if_pos hv, List.mem_cons, ih (start + 1) p]
      constructor
      · rintro (h | ⟨i, hi, hp⟩)
        · exact ⟨0, by simp [hv], by push_cast at h ⊢; omega⟩
        · exact ⟨i + 1, by simpa using hi, by push_cast at hp ⊢; omega⟩
      · rintro ⟨i, hi, hp⟩
        cases i with
        | zero => left; push_cast at hp ⊢; omega
        | succ j =>
          right
          exact ⟨j, by simpa using hi, by push_cast at hp ⊢; omega⟩
    · rw [if_neg hv, ih (start + 1) p]
      constructor
      · rintro ⟨i, hi, hp⟩
        exact ⟨i + 1, by simpa using hi, by push_cast at hp ⊢; omega⟩
      · rintro ⟨i, hi, hp⟩
        cases i with
        | zero => simp at hi; exact absurd hi hv
        | succ j =>
          exact ⟨j, by simpa using hi, by push_cast at hp ⊢; omega⟩

/-- The comprehension's output is strictly increasing. -/
theorem select_params_from_sorted (l : List Int) :
    ∀ start : Nat, List.Sorted (· < ·) (select_params_from start l) := by
  induction l with
  | nil =>
    intro start
    simp [select_params_from]
  | cons v rest ih =>
    intro start
    rw [select_params_from]
    by_cases hv : v = 1
    · rw [if_pos hv]
      refine List.sorted_cons.mpr ⟨?_, ih (start + 1)⟩
      intro b hb
      obtain ⟨i, -, hp⟩ := (select_params_from_mem rest (start + 1) b).mp hb
      push_cast at hp ⊢
      omega
    · rw [if_neg hv]
      exact ih (start + 1)

/-- C3: decoding any 9-slot action vector (1 selection slot + 8 card slots)
yields a command whose `action` is in the closed native set `{1, 2, 3}` and
whose `params` are exactly the 1-based positions of the card slots holding
1, strictly ascending and all within `[1, 8]`. -/
theorem c3_decode_closed_action_and_params (a : List Int) (h9 : a.length = 9) :
    ∃ cmd : ActionCommand,
      env_action_mapper.process_action a = .ok cmd ∧
      (cmd.action = 1 ∨ cmd.action = 2 ∨ cmd.action = 3) ∧
      List.Sorted (· < ·) cmd.params ∧
      (∀ p ∈ cmd.params, 1 ≤ p ∧ p ≤ 8) ∧
      (∀ k : Nat, ((k : Int) ∈ cmd.params ↔ 1 ≤ k ∧ k ≤ 8 ∧ a[k]? = some (1 : Int))) := by
  match a, h9 with
  | a₀ :: rest, h9 =>
    have hlen : rest.length = 8 := by simpa using h9
    have htake : rest.take 8 = rest := by
      rw [← hlen]
      exact rest.take_length
    refine ⟨⟨ai_to_balatro_mapping a₀, select_params_from 0 (rest.take 8)⟩, rfl, ?_, ?_, ?_, ?_⟩
    · unfold ai_to_balatro_mapping
      split_ifs <;> simp
    · rw [htake]
      exact select_params_from_sorted rest 0
    · rw [htake]
      intro p hp
      obtain ⟨i, hi, hp'⟩ := (select_params_from_mem rest 0 p).mp hp
      have hilt : i < rest.length := by
        by_contra hge
        rw [List.getElem?_eq_none (Nat.le_of_not_lt hge)] at hi
        exact Option.noConfusion hi
      rw [hlen] at hilt
      push_cast at hp'
      omega
    · rw [htake]
      intro k
      rw [select_params_from_mem rest 0 (k : Int)]
      constructor
      · rintro ⟨i, hi, hp⟩
        have hilt : i < rest.length := by
          by_contra hge
          rw [List.getElem?_eq_none (Nat.le_of_not_lt hge)] at hi
          exact Option.noConfusion hi
        have hk : k = i + 1 := by push_cast at hp; omega
        subst hk
        refine ⟨by omega, by omega, ?_⟩
        simpa using hi
      · rintro ⟨h1, h8, hk⟩
        cases k with
        | zero => omega
        | succ j =>
          refine ⟨j, by simpa using hk, by push_cast; omega⟩

/-- Witness for C3 at a concrete 9-slot action vector. -/
theorem c3_witness :
    ([2, 1, 0, 1, 0, 0, 0, 0, 1] : List Int).length = 9 ∧
    ∃ cmd : ActionCommand,
      env_action_mapper.process_action [2, 1, 0, 1, 0, 0, 0, 0, 1] = .ok cmd ∧
      (cmd.action = 1 ∨ cmd.action = 2 ∨ cmd.action = 3) ∧
      List.Sorted (· < ·) cmd.params ∧
      (∀ p ∈ cmd.params, 1 ≤ p ∧ p ≤ 8) ∧
      (∀ k : Nat, ((k : Int) ∈ cmd.params ↔
        1 ≤ k ∧ k ≤ 8 ∧ ([2, 1, 0, 1, 0, 0, 0, 0, 1] : List Int)[k]? = some (1 : Int))) :=
  ⟨rfl, c3_decode_closed_action_and_params [2, 1, 0, 1, 0, 0, 0, 0, 1] rfl⟩

/-- C4: `process_game_state` on `None` or the empty dict returns an all-zero
vector of the configured fixed length 216 and raises nothing. -/
theorem c4_empty_snapshot_zero_vector :
    env_state_mapper.process_game_state none = .ok (List.replicate 216 (0 : ℚ)) ∧
    env_state_mapper.process_game_state (some Snapshot.empty)
      = .ok (List.replicate 216 (0 : ℚ)) :=
  ⟨rfl, rfl⟩

/-- C5: from a freshly reset calculator, a step raising chips from 0 to 250
against a 300-chip blind (83.3% ≥ 80%) earns the top-tier chip-gain reward
10.0 exactly once; an immediately repeated identical state earns 0. -/
theorem c5_top_tier_reward_once :
    (calculate_reward initRewardState c5_state none).1 = 10 ∧
    (calculate_reward (calculate_reward initRewardState c5_state none).2 c5_state none).1
      = 0 := by
  constructor <;>
    norm_num [calculate_reward, update_last_seen, score_block, blind_block,
      penalty_block, c5_state, initRewardState, InnerState.empty,
      CurrentHand.empty, track_hand_played, THRESHOLD_excellent, THRESHOLD_good,
      THRESHOLD_decent]

/-- A calculator state whose milestone has already been claimed. -/
def claimed_state : RewardState :=
  { initRewardState with blind_already_defeated := true }

/-- Models `update_last_seen` does not touch the claimed flag. -/
theorem update_last_seen_blind (s : RewardState) (h' : String) :
    (update_last_seen s h').blind_already_defeated = s.blind_already_defeated := by
  unfold update_last_seen
  split_ifs <;> rfl

/-- Models `update_last_seen` does not touch the penalty flag. -/
theorem update_last_seen_penalty (s : RewardState) (h' : String) :
    (update_last_seen s h').game_over_penalty_applied = s.game_over_penalty_applied := by
  unfold update_last_seen
  split_ifs <;> rfl

/-- The scoring block does not touch the claimed flag. -/
theorem score_block_blind (s : RewardState) (r g b : ℚ) (go : Int) (cc : ℚ) :
    (score_block s r g b go cc).2.blind_already_defeated = s.blind_already_defeated := by
  unfold score_block
  split_ifs <;> simp [track_hand_played]

/-- The scoring block does not touch the penalty flag. -/
theorem score_block_penalty (s : RewardState) (r g b : ℚ) (go : Int) (cc : ℚ) :
    (score_block s r g b go cc).2.game_over_penalty_applied = s.game_over_penalty_applied := by
  unfold score_block
  split_ifs <;> simp [track_hand_played]

/-- The milestone block does not touch the penalty flag. -/
theorem blind_block_penalty (s : RewardState) (r : ℚ) (bd go : Int) (cc : ℚ) :
    (blind_block s r bd go cc).2.game_over_penalty_applied = s.game_over_penalty_applied := by
  unfold blind_block
  split_ifs <;> rfl

/-- The milestone block never clears an already-set claimed flag. -/
theorem blind_block_blind_of_true (s : RewardState) (r : ℚ) (bd go : Int) (cc : ℚ)
    (h : s.blind_already_defeated = true) :
    (blind_block s r bd go cc).2.blind_already_defeated = true := by
  unfold blind_block
  split_ifs <;> simp_all

/-- The penalty block does not touch the claimed flag. -/
theorem penalty_block_blind (s : RewardState) (r : ℚ) (go : Int) :
    (penalty_block s r go).2.blind_already_defeated = s.blind_already_defeated := by
  unfold penalty_block
  split_ifs <;> rfl

/-- The penalty block never clears an already-set penalty flag. -/
theorem penalty_block_penalty_of_true (s : RewardState) (r : ℚ) (go : Int)
    (h : s.game_over_penalty_applied = true) :
    (penalty_block s r go).2.game_over_penalty_applied = true := by
  unfold penalty_block
  split_ifs <;> simp_all

/-- With the milestone claimed, the penalty block leaves the penalty flag
unchanged (its guard requires an unclaimed milestone). -/
theorem penalty_block_penalty_of_blind (s : RewardState) (r : ℚ) (go : Int)
    (h : s.blind_already_defeated = true) :
    (penalty_block s r go).2.game_over_penalty_applied = s.game_over_penalty_applied := by
  unfold penalty_block
  split_ifs <;> simp_all

/-- Once set, the claimed flag survives every further reward call: nothing in
`calculate_reward` ever clears it. -/
theorem blind_flag_mono (s : RewardState) (c : Snapshot) (p : Option Snapshot)
    (h : s.blind_already_defeated = true) :
    (calculate_reward s c p).2.blind_already_defeated = true := by
  unfold calculate_reward
  dsimp only
  rw [penalty_block_blind]
  apply blind_block_blind_of_true
  rw [score_block_blind, update_last_seen_blind]
  exact h

/-- With the claimed flag set, the bonus-firing observable is false. -/
theorem bonus_not_fired_of_claimed (s : RewardState) (c : Snapshot) (p : Option Snapshot)
    (h : s.blind_already_defeated = true) : bonus_fired s c p = false := by
  simp [bonus_fired, h]

/-- C6: within an episode, once the milestone bonus has been claimed (the
flag is set), no later sequence of reward calls ever fires the one-time
milestone bonus again. -/
theorem c6_milestone_bonus_never_reawarded (s : RewardState) (cs : List Snapshot)
    (h : s.blind_already_defeated = true) : count_bonus_fires s cs = 0 := by
  induction cs generalizing s with
  | nil => rfl
  | cons c cs ih =>
    simp only [count_bonus_fires, bonus_not_fired_of_claimed s c none h]
    simpa using ih _ (blind_flag_mono s c none h)

/-- Witness for C6 at a concrete claimed state and trace. -/
theorem c6_witness :
    count_bonus_fires claimed_state [c5_state, c5_state] = 0 :=
  c6_milestone_bonus_never_reawarded claimed_state [c5_state, c5_state] rfl

/-- Once set, the penalty flag survives every further reward call. -/
theorem penalty_flag_mono (s : RewardState) (c : Snapshot) (p : Option Snapshot)
    (h : s.game_over_penalty_applied = true) :
    (calculate_reward s c p).2.game_over_penalty_applied = true := by
  unfold calculate_reward
  dsimp only
  apply penalty_block_penalty_of_true
  rw [blind_block_penalty, score_block_penalty, update_last_seen_penalty]
  exact h

/-- A fired penalty leaves the penalty flag set. -/
theorem penalty_fired_sets_flag (s : RewardState) (c : Snapshot) (p : Option Snapshot)
    (h : penalty_fired s c p = true) :
    (calculate_reward s c p).2.game_over_penalty_applied = true := by
  simp only [penalty_fired, Bool.and_eq_true] at h
  exact h.2

/-- With the penalty flag set, the penalty-firing observable is false. -/
theorem penalty_not_fired_of_applied (s : RewardState) (c : Snapshot) (p : Option Snapshot)
    (h : s.game_over_penalty_applied = true) : penalty_fired s c p = false := by
  simp [penalty_fired, h]

/-- With the claimed flag set, the terminal penalty cannot fire: the penalty
branch requires the milestone never to have been claimed. -/
theorem penalty_not_fired_of_claimed (s : RewardState) (c : Snapshot) (p : Option Snapshot)
    (h : s.blind_already_defeated = true) : penalty_fired s c p = false := by
  have hpost : (calculate_reward s c p).2.game_over_penalty_applied
      = s.game_over_penalty_applied := by
    unfold calculate_reward
    dsimp only
    rw [penalty_block_penalty_of_blind, blind_block_penalty, score_block_penalty,
      update_last_seen_penalty]
    apply blind_block_blind_of_true
    rw [score_block_blind, update_last_seen_blind]
    exact h
  simp [penalty_fired, hpost]

/-- With the penalty flag set, no later call fires the penalty. -/
theorem count_penalty_zero_of_applied (s : RewardState) (cs : List Snapshot)
    (h : s.game_over_penalty_applied = true) : count_penalty_fires s cs = 0 := by
  induction cs generalizing s with
  | nil => rfl
  | cons c cs ih =>
    simp only [count_penalty_fires, penalty_not_fired_of_applied s c none h]
    simpa using ih _ (penalty_flag_mono s c none h)

/-- C7: the terminal-failure penalty fires at most once per episode; it never
fires once the milestone has been claimed (and the claimed flag is never
cleared mid-episode); and `reset` restores every episode-scoped field
(previous chips, claimed flag, penalty flag, per-hand log, episode reward
accumulator, and the remaining per-episode trackers) to its initial value. -/
theorem c7_penalty_once_and_reset :
    (∀ (s : RewardState) (cs : List Snapshot), count_penalty_fires s cs ≤ 1) ∧
    (∀ (s : RewardState) (c : Snapshot) (p : Option Snapshot),
      s.blind_already_defeated = true → penalty_fired s c p = false) ∧
    (∀ (s : RewardState) (c : Snapshot) (p : Option Snapshot),
      s.blind_already_defeated = true →
      (calculate_reward s c p).2.blind_already_defeated = true) ∧
    (∀ s : RewardState,
      s.reset.previous_chips = 0 ∧ s.reset.blind_already_defeated = false ∧
      s.reset.game_over_penalty_applied = false ∧ s.reset.hands_played = [] ∧
      s.reset.episode_total_reward = 0 ∧ s.reset.previous_hand_played = "None" ∧
      s.reset.last_seen_hand_type = "Unknown" ∧ s.reset.winning_chips = 0) := by
  refine ⟨?_, penalty_not_fired_of_claimed, blind_flag_mono, ?_⟩
  · intro s cs
    induction cs generalizing s with
    | nil => simp [count_penalty_fires]
    | cons c cs ih =>
      simp only [count_penalty_fires]
      by_cases hf : penalty_fired s c none = true
      · rw [count_penalty_zero_of_applied _ _ (penalty_fired_sets_flag s c none hf)]
        simp [hf]
      · simp only [Bool.not_eq_true] at hf
        simpa [hf] using ih _
  · intro s
    exact ⟨rfl, rfl, rfl, rfl, rfl, rfl, rfl, rfl⟩

/-- Witness for C7 at concrete states and traces. -/
theorem c7_witness :
    count_penalty_fires initRewardState [c5_state, c5_state] ≤ 1 ∧
    penalty_fired claimed_state c5_state none = false ∧
    (calculate_reward claimed_state c5_state none).2.blind_already_defeated = true ∧
    (initRewardState.reset.previous_chips = 0 ∧
      initRewardState.reset.blind_already_defeated = false ∧
      initRewardState.reset.game_over_penalty_applied = false ∧
      initRewardState.reset.hands_played = [] ∧
      initRewardState.reset.episode_total_reward = 0 ∧
      initRewardState.reset.previous_hand_played = "None" ∧
      initRewardState.reset.last_seen_hand_type = "Unknown" ∧
      initRewardState.reset.winning_chips = 0) := by
  obtain ⟨h1, h2, h3, h4⟩ := c7_penalty_once_and_reset
  exact ⟨h1 _ _, h2 _ _ _ rfl, h3 _ _ _ rfl, h4 _⟩

/-- A replay record carrying only a score (the other payload is fixed). -/
def rec_score (q : ℚ) : ReplayRecord := ⟨"seed", "time", 0, q, []⟩

/-- Loading a list-shaped file returns its records. -/
theorem load_jsonList (l : List ReplayRecord) : load_replays (.jsonList l) = l := rfl

/-- The descending sort is sorted. -/
theorem sort_desc_sorted (l : List ReplayRecord) : List.Sorted score_ge (sort_desc l) :=
  List.sorted_insertionSort score_ge l

/-- The descending sort permutes its input. -/
theorem sort_desc_perm (l : List ReplayRecord) : (sort_desc l).Perm l :=
  List.perm_insertionSort score_ge l

/-- An already-descending list is fixed by the sort. -/
theorem sort_desc_of_sorted {l : List ReplayRecord} (h : List.Sorted score_ge l) :
    sort_desc l = l :=
  h.insertionSort_eq

/-- One save keeps the leaderboard invariant and yields the expected record
count `min (previous + 1) MAX_REPLAYS`. -/
theorem try_save_step (sys : ReplaySystem) (file : ReplayFile) (rec : ReplayRecord)
    (h0 : 0 < sys.MAX_REPLAYS) (hwf : leaderboard_wf sys file) :
    ∃ res : ReplayFile × Nat, try_save_replay sys file rec = .ok res ∧
      leaderboard_wf sys res.1 ∧
      (load_replays res.1).length = min ((load_replays file).length + 1) sys.MAX_REPLAYS := by
  obtain ⟨hlen, hsort⟩ := hwf
  unfold try_save_replay
  dsimp only
  by_cases hlt : (load_replays file).length < sys.MAX_REPLAYS
  · rw [if_pos hlt]
    refine ⟨_, rfl, ⟨?_, ?_⟩, ?_⟩
    · simp only [load_jsonList, List.length_take]
      exact min_le_left _ _
    · simp only [load_jsonList]
      exact (sort_desc_sorted _).sublist (List.take_sublist _ _)
    · simp only [load_jsonList, List.length_take]
      rw [(sort_desc_perm _).length_eq, List.length_append]
      simp only [List.length_singleton]
      omega
  · rw [if_neg hlt]
    have hK : (load_replays file).length = sys.MAX_REPLAYS :=
      le_antisymm hlen (Nat.le_of_not_lt hlt)
    have hne : sort_desc (load_replays file) ≠ [] := by
      intro h
      have hl := (sort_desc_perm (load_replays file)).length_eq
      rw [h] at hl
      simp only [List.length_nil] at hl
      omega
    obtain ⟨last, hlast⟩ : ∃ x, (sort_desc (load_replays file)).getLast? = some x := by
      cases hgl : (sort_desc (load_replays file)).getLast? with
      | none => exact absurd (List.getLast?_eq_none_iff.mp hgl) hne
      | some x => exact ⟨x, rfl⟩
    rw [hlast]
    dsimp only
    by_cases hsc : last.score < rec.score
    · rw [if_pos hsc]
      refine ⟨_, rfl, ⟨?_, ?_⟩, ?_⟩
      · simp only [load_jsonList, List.length_take]
        exact min_le_left _ _
      · simp only [load_jsonList]
        exact (sort_desc_sorted _).sublist (List.take_sublist _ _)
      · simp only [load_jsonList, List.length_take]
        rw [(sort_desc_perm _).length_eq, List.length_append, List.length_dropLast,
          (sort_desc_perm _).length_eq]
        simp only [List.length_singleton]
        omega
    · rw [if_neg hsc]
      exact ⟨_, rfl, ⟨hlen, hsort⟩, by dsimp only; omega⟩

/-- Saving a batch of records from a well-formed leaderboard succeeds and
leaves `min (previous + batch) MAX_REPLAYS` records, still well-formed. -/
theorem save_all_spec (sys : ReplaySystem) (h0 : 0 < sys.MAX_REPLAYS) :
    ∀ (recs : List ReplayRecord) (file : ReplayFile), leaderboard_wf sys file →
      ∃ f', save_all sys file recs = .ok f' ∧ leaderboard_wf sys f' ∧
        (load_replays f').length
          = min ((load_replays file).length + recs.length) sys.MAX_REPLAYS := by
  intro recs
  induction recs with
  | nil =>
    intro file hwf
    refine ⟨file, rfl, hwf, ?_⟩
    have := hwf.1
    simp only [List.length_nil]
    omega
  | cons r rs ih =>
    intro file hwf
    obtain ⟨res, hres, hwf', hlen'⟩ := try_save_step sys file r h0 hwf
    obtain ⟨f', hsave, hwf'', hlen''⟩ := ih res.1 hwf'
    refine ⟨f', ?_, hwf'', ?_⟩
    · simp only [save_all, hres]
      simpa [Except.bind] using hsave
    · rw [hlen'', hlen']
      simp only [List.length_cons]
      omega

/-- C8 counterexample: with capacity `K = 1` and a starting file already
holding two records, a save whose score does not beat the current minimum
returns without writing, so the persisted leaderboard still holds 2 > K
records — the claim's "for every starting leaderboard state, ... at most K
records" is false as stated. -/
theorem c8_counterexample :
    try_save_replay ⟨1⟩ (.jsonList [rec_score 5, rec_score 3]) (rec_score 1)
      = .ok (.jsonList [rec_score 5, rec_score 3], 2) ∧
    (load_replays (.jsonList [rec_score 5, rec_score 3])).length = 2 ∧ 1 < 2 :=
  ⟨rfl, rfl, by omega⟩

/-- C8 (amended): restricted to starting leaderboards that already satisfy
the bounded-sorted invariant, `try_save_replay` preserves it; saving K+1
records from an empty leaderboard leaves exactly K, sorted descending; and
on a full leaderboard the lowest-scoring (last) record is evicted exactly
when the new score is strictly greater, the file being returned unchanged
otherwise. -/
theorem c8_bounded_sorted_leaderboard :
    (∀ (sys : ReplaySystem) (file : ReplayFile) (rec : ReplayRecord)
       (res : ReplayFile × Nat),
       leaderboard_wf sys file → try_save_replay sys file rec = .ok res →
       leaderboard_wf sys res.1) ∧
    (∀ (sys : ReplaySystem) (recs : List ReplayRecord), 0 < sys.MAX_REPLAYS →
       recs.length = sys.MAX_REPLAYS + 1 →
       ∃ f', save_all sys (.jsonList []) recs = .ok f' ∧
         (load_replays f').length = sys.MAX_REPLAYS ∧
         List.Sorted score_ge (load_replays f')) ∧
    (∀ (sys : ReplaySystem) (file : ReplayFile) (rec last : ReplayRecord),
       0 < sys.MAX_REPLAYS → leaderboard_wf sys file →
       (load_replays file).length = sys.MAX_REPLAYS →
       (load_replays file).getLast? = some last →
       last.score < rec.score →
       ∃ res : ReplayFile × Nat, try_save_replay sys file rec = .ok res ∧
         (load_replays res.1).Perm ((load_replays file).dropLast ++ [rec]) ∧
         List.Sorted score_ge (load_replays res.1) ∧
         (load_replays res.1).length = sys.MAX_REPLAYS) ∧
    (∀ (sys : ReplaySystem) (file : ReplayFile) (rec last : ReplayRecord),
       leaderboard_wf sys file →
       (load_replays file).length = sys.MAX_REPLAYS →
       (load_replays file).getLast? = some last →
       ¬ last.score < rec.score →
       try_save_replay sys file rec = .ok (file, sys.MAX_REPLAYS)) := by
  refine ⟨?_, ?_, ?_, ?_⟩
  · intro sys file rec res hwf heq
    rcases Nat.eq_zero_or_pos sys.MAX_REPLAYS with h0 | h0
    · exfalso
      have hload : load_replays file = [] := by
        have := hwf.1
        rw [h0] at this
        exact List.length_eq_zero.mp (Nat.le_zero.mp this)
      rw [try_save_replay] at heq
      simp only [hload, h0, List.length_nil, Nat.lt_irrefl, if_false] at heq
      have hnil : sort_desc ([] : List ReplayRecord) = [] := rfl
      rw [hnil] at heq
      simp only [List.getLast?] at heq
      exact Except.noConfusion heq
    · obtain ⟨res', hres', hwf', -⟩ := try_save_step sys file rec h0 hwf
      rw [heq] at hres'
      have : res = res' := by
        injection hres'
      rw [this]
      exact hwf'
  · intro sys recs h0 hlen
    obtain ⟨f', hsave, hwf', hlen'⟩ :=
      save_all_spec sys h0 recs (.jsonList []) ⟨by simp [load_jsonList], by simp [load_jsonList]⟩
    refine ⟨f', hsave, ?_, hwf'.2⟩
    rw [hlen', hlen]
    simp only [load_jsonList, List.length_nil]
    omega
  · intro sys file rec last h0 hwf hK hlast hsc
    obtain ⟨hlen, hsort⟩ := hwf
    unfold try_save_replay
    dsimp only
    rw [if_neg (by omega), sort_desc_of_sorted hsort, hlast]
    dsimp only
    rw [if_pos hsc]
    have hfull : ((load_replays file).dropLast ++ [rec]).length = sys.MAX_REPLAYS := by
      rw [List.length_append, List.length_dropLast]
      simp only [List.length_singleton]
      omega
    have htake : (sort_desc ((load_replays file).dropLast ++ [rec])).take sys.MAX_REPLAYS
        = sort_desc ((load_replays file).dropLast ++ [rec]) := by
      apply List.take_of_length_le
      rw [(sort_desc_perm _).length_eq, hfull]
    refine ⟨_, rfl, ?_, ?_, ?_⟩
    · simp only [load_jsonList, htake]
      exact sort_desc_perm _
    · simp only [load_jsonList]
      exact (sort_desc_sorted _).sublist (List.take_sublist _ _)
    · simp only [load_jsonList, htake]
      rw [(sort_desc_perm _).length_eq, hfull]
  · intro sys file rec last hwf hK hlast hsc
    obtain ⟨hlen, hsort⟩ := hwf
    unfold try_save_replay
    dsimp only
    rw [if_neg (by omega), sort_desc_of_sorted hsort, hlast]
    dsimp only
    rw [if_neg hsc, hK]

/-- Witness for C8 at concrete capacities, files and records. -/
theorem c8_witness :
    leaderboard_wf ⟨2⟩ (.jsonList [rec_score 3]) ∧
    (∃ f', save_all ⟨1⟩ (.jsonList []) [rec_score 3, rec_score 5] = .ok f' ∧
      (load_replays f').length = 1 ∧ List.Sorted score_ge (load_replays f')) ∧
    (∃ res : ReplayFile × Nat,
      try_save_replay ⟨1⟩ (.jsonList [rec_score 3]) (rec_score 5) = .ok res ∧
      (load_replays res.1).Perm ((load_replays (.jsonList [rec_score 3])).dropLast
        ++ [rec_score 5]) ∧
      List.Sorted score_ge (load_replays res.1) ∧ (load_replays res.1).length = 1) ∧
    try_save_replay ⟨1⟩ (.jsonList [rec_score 3]) (rec_score 1)
      = .ok (.jsonList [rec_score 3], 1) := by
  obtain ⟨h1, h2, h3, h4⟩ := c8_bounded_sorted_leaderboard
  refine ⟨?_, ?_, ?_, ?_⟩
  · exact h1 ⟨2⟩ (.jsonList []) (rec_score 3) (.jsonList [rec_score 3], 1)
      ⟨by decide, by simp [load_replays]⟩ rfl
  · exact h2 ⟨1⟩ [rec_score 3, rec_score 5] (by decide) rfl
  · exact h3 ⟨1⟩ (.jsonList [rec_score 3]) (rec_score 5) (rec_score 3) (by decide)
      ⟨by decide, by simp [load_replays]⟩ rfl rfl (by decide)
  · exact h4 ⟨1⟩ (.jsonList [rec_score 3]) (rec_score 1) (rec_score 3)
      ⟨by decide, by simp [load_replays]⟩ rfl rfl (by decide)

/-- C9: `load_replays` yields the empty list on a missing or unparsable
file, and `try_save_replay` on such a file behaves exactly as on an empty
leaderboard. -/
theorem c9_load_tolerates_missing_and_corrupt (sys : ReplaySystem) (rec : ReplayRecord) :
    load_replays .missing = [] ∧ load_replays .corrupt = [] ∧
    try_save_replay sys .missing rec = try_save_replay sys (.jsonList []) rec ∧
    try_save_replay sys .corrupt rec = try_save_replay sys (.jsonList []) rec :=
  ⟨rfl, rfl, rfl, rfl⟩

/-- Witness for C9 at a concrete system and record. -/
theorem c9_witness :
    load_replays .missing = [] ∧ load_replays .corrupt = [] ∧
    try_save_replay ⟨10⟩ .missing (rec_score 1)
      = try_save_replay ⟨10⟩ (.jsonList []) (rec_score 1) ∧
    try_save_replay ⟨10⟩ .corrupt (rec_score 1)
      = try_save_replay ⟨10⟩ (.jsonList []) (rec_score 1) :=
  c9_load_tolerates_missing_and_corrupt ⟨10⟩ (rec_score 1)

/-- C10: the reward and the resulting calculator state do not depend on the
`prev_state` argument, which the source accepts but never reads. -/
theorem c10_reward_ignores_prev_state (s : RewardState) (c : Snapshot)
    (p₁ p₂ : Option Snapshot) :
    calculate_reward s c p₁ = calculate_reward s c p₂ :=
  rfl

/-- Witness for C10 at a concrete state and two different previous states. -/
theorem c10_witness :
    calculate_reward initRewardState c5_state none
      = calculate_reward initRewardState c5_state (some Snapshot.empty) :=
  c10_reward_ignores_prev_state initRewardState c5_state none (some Snapshot.empty)

end Balatro
